import Mathlib

/-!
Verification development for the Sadaqa Tech operational-intelligence
repository.

The delivered tree contains the database schema (`infra/docker/init.sql`),
the dashboard front end (`frontend/src`), and design documentation
(`docs/ML_INTEGRATION_GUIDE.md`).  The embedding below translates the
schema's tables, column constraints, row-level-security policies and seed
statements, together with the front end's sidebar/route tables, into Lean
definitions.  Components that the documentation specifies but whose source
is absent from the tree (the ML engine's scaling calculator and hybrid
forecaster, the metrics-ingestion endpoint) are modelled from the spec and
are marked as such in their doc comments.
-/

namespace SadaqaTech

/-! ## Rows of the six tables of `infra/docker/init.sql`

UUID and text columns are `String`; SQL-nullable columns are `Option`;
`FLOAT` columns are `ℚ` (exact rationals standing for the numeric values);
timestamps are `Int`.  A column declared `NOT NULL` without a default is a
plain field; nullability that the schema must check at insert time (the
`reason` column) is kept as `Option` so that the NOT NULL check itself is
part of the model. -/

/-- A row of `tenants` (init.sql lines 5-12). -/
structure TenantRow where
  id : String
  name : String
  api_key_hash : String
  is_active : Bool
deriving DecidableEq, Repr

/-- A row of `users` (init.sql lines 15-26). -/
structure UserRow where
  id : String
  tenant_id : String
  email : String
  password_hash : String
  full_name : Option String
  role : String
  is_active : Bool
deriving DecidableEq, Repr

/-- A row of `metrics` (init.sql lines 29-36), the TimescaleDB hypertable.
Note: the schema gives `tenant_id UUID NOT NULL` with no REFERENCES
clause. -/
structure MetricRow where
  time : Int
  tenant_id : String
  metric_type : String
  value : ℚ
  tags : Option String
deriving DecidableEq, Repr

/-- A row of `forecasts` (init.sql lines 47-56). -/
structure ForecastRow where
  id : String
  tenant_id : String
  forecast_time : Int
  metric_type : String
  predicted_value : ℚ
  confidence : ℚ
  model_version : Option String
deriving DecidableEq, Repr

/-- A row of `scaling_events` (init.sql lines 61-75).  `reason` is kept as
`Option String` so that the schema's NOT NULL check on it is explicit in
the insert-admission predicate. -/
structure ScalingEventRow where
  id : String
  tenant_id : String
  event_type : String
  current_replicas : Int
  recommended_replicas : Int
  cost_impact_usd : Option ℚ
  confidence : ℚ
  status : String
  reason : Option String
  approved_by : Option String
  executed_at : Option Int
deriving DecidableEq, Repr

/-- A row of `audit_logs` (init.sql lines 81-92). -/
structure AuditLogRow where
  id : String
  tenant_id : String
  user_id : Option String
  action : String
  resource_type : Option String
  resource_id : Option String
  changes : Option String
  ip_address : Option String
  user_agent : Option String
deriving DecidableEq, Repr

/-- The database state: the six tables created by init.sql. -/
structure DB where
  tenants : List TenantRow
  users : List UserRow
  metrics : List MetricRow
  forecasts : List ForecastRow
  scaling_events : List ScalingEventRow
  audit_logs : List AuditLogRow
deriving DecidableEq, Repr

/-- The empty database, as produced by the CREATE TABLE statements before
any insert. -/
def DB.empty : DB := ⟨[], [], [], [], [], []⟩

/-- Does a tenant with the given id exist (target of the
`REFERENCES tenants(id)` clauses)? -/
def tenantExists (db : DB) (tid : String) : Bool :=
  db.tenants.any (fun t => t.id == tid)

/-! ## Column-constraint checks (insert admission)

Each predicate states exactly what the delivered schema can check when a
row is inserted: NOT NULL on nullable-typed fields, VARCHAR length limits,
primary-key uniqueness and the REFERENCES clauses that are actually
present in init.sql.  There is no CHECK constraint anywhere in the schema,
so no value-level condition beyond these appears. -/

/-- Admission check for inserting into `scaling_events`: primary-key
uniqueness on `id`, the `REFERENCES tenants(id)` clause on `tenant_id`,
VARCHAR(50) limits on `event_type` and `status`, and NOT NULL on
`reason`.  The schema has no CHECK constraint, so nothing further is
tested: any status string and any present reason (including `""`) pass. -/
def insertScalingEventOk (db : DB) (r : ScalingEventRow) : Bool :=
  db.scaling_events.all (fun e => e.id != r.id) &&
  tenantExists db r.tenant_id &&
  r.event_type.length ≤ 50 &&
  r.status.length ≤ 50 &&
  r.reason.isSome

/-- Admission check for inserting into `forecasts`: primary-key
uniqueness, the `REFERENCES tenants(id)` clause, VARCHAR(50) on
`metric_type`. -/
def insertForecastOk (db : DB) (r : ForecastRow) : Bool :=
  db.forecasts.all (fun e => e.id != r.id) &&
  tenantExists db r.tenant_id &&
  r.metric_type.length ≤ 50

/-- Admission check for inserting into `audit_logs`: primary-key
uniqueness and the `REFERENCES tenants(id)` clause. -/
def insertAuditLogOk (db : DB) (r : AuditLogRow) : Bool :=
  db.audit_logs.all (fun e => e.id != r.id) &&
  tenantExists db r.tenant_id &&
  r.action.length ≤ 100

/-- Admission check for inserting into `metrics`.  The hypertable's
columns are all NOT NULL or nullable with no further constraint, and —
unlike `forecasts`, `scaling_events` and `audit_logs` — its `tenant_id`
carries **no** REFERENCES clause in init.sql, so the schema checks only
the VARCHAR(50) limit on `metric_type`. -/
def insertMetricOk (_db : DB) (r : MetricRow) : Bool :=
  r.metric_type.length ≤ 50

/-- Apply an admitted `scaling_events` insert. -/
def insertScalingEvent (db : DB) (r : ScalingEventRow) : DB :=
  { db with scaling_events := db.scaling_events ++ [r] }

/-- Apply an admitted `forecasts` insert. -/
def insertForecast (db : DB) (r : ForecastRow) : DB :=
  { db with forecasts := db.forecasts ++ [r] }

/-- Apply an admitted `audit_logs` insert. -/
def insertAuditLog (db : DB) (r : AuditLogRow) : DB :=
  { db with audit_logs := db.audit_logs ++ [r] }

/-- Apply an admitted `metrics` insert. -/
def insertMetric (db : DB) (r : MetricRow) : DB :=
  { db with metrics := db.metrics ++ [r] }

/-- Delete a tenant row.  Per init.sql, `users`, `forecasts`,
`scaling_events` and `audit_logs` declare
`REFERENCES tenants(id) ON DELETE CASCADE`, so their rows for this tenant
are removed with it; `metrics` has no foreign key at all, so its rows are
untouched (they simply keep the now-dangling tenant_id). -/
def deleteTenant (db : DB) (tid : String) : DB :=
  { tenants := db.tenants.filter (fun t => t.id != tid)
    users := db.users.filter (fun u => u.tenant_id != tid)
    metrics := db.metrics
    forecasts := db.forecasts.filter (fun f => f.tenant_id != tid)
    scaling_events := db.scaling_events.filter (fun e => e.tenant_id != tid)
    audit_logs := db.audit_logs.filter (fun a => a.tenant_id != tid) }

/-! ## Row-level security (init.sql lines 122-149)

Each policy is a `USING` predicate over a row, evaluated against the
per-connection session variable `app.current_tenant_id` (here the `ctx`
argument, assumed set as the NOTE at init.sql line 123 requires).  The
`tenants` policy is `USING (true)`; every other table's policy is
`tenant_id = current_setting('app.current_tenant_id')::uuid`. -/

/-- Policy `tenant_isolation_tenants`: `USING (true)`. -/
def policyTenants (_ctx : String) (_r : TenantRow) : Bool := true

/-- Policy `tenant_isolation_users`. -/
def policyUsers (ctx : String) (r : UserRow) : Bool := r.tenant_id == ctx

/-- Policy `tenant_isolation_metrics`. -/
def policyMetrics (ctx : String) (r : MetricRow) : Bool := r.tenant_id == ctx

/-- Policy `tenant_isolation_forecasts`. -/
def policyForecasts (ctx : String) (r : ForecastRow) : Bool := r.tenant_id == ctx

/-- Policy `tenant_isolation_scaling_events`. -/
def policyScalingEvents (ctx : String) (r : ScalingEventRow) : Bool := r.tenant_id == ctx

/-- Policy `tenant_isolation_audit_logs`. -/
def policyAuditLogs (ctx : String) (r : AuditLogRow) : Bool := r.tenant_id == ctx

/-- Rows of `users` a session with `app.current_tenant_id = ctx` can see
or affect. -/
def visibleUsers (ctx : String) (db : DB) : List UserRow :=
  db.users.filter (policyUsers ctx)

/-- Rows of `metrics` visible under `ctx`. -/
def visibleMetrics (ctx : String) (db : DB) : List MetricRow :=
  db.metrics.filter (policyMetrics ctx)

/-- Rows of `forecasts` visible under `ctx`. -/
def visibleForecasts (ctx : String) (db : DB) : List ForecastRow :=
  db.forecasts.filter (policyForecasts ctx)

/-- Rows of `scaling_events` visible under `ctx`. -/
def visibleScalingEvents (ctx : String) (db : DB) : List ScalingEventRow :=
  db.scaling_events.filter (policyScalingEvents ctx)

/-- Rows of `audit_logs` visible under `ctx`. -/
def visibleAuditLogs (ctx : String) (db : DB) : List AuditLogRow :=
  db.audit_logs.filter (policyAuditLogs ctx)

/-- Rows of `tenants` visible under `ctx` (the permissive policy). -/
def visibleTenants (ctx : String) (db : DB) : List TenantRow :=
  db.tenants.filter (policyTenants ctx)

/-! ## Seed data (init.sql lines 97-120)

Two `INSERT ... ON CONFLICT ... DO NOTHING` statements: the demo tenant
(conflict target: the primary key `id`) and the demo admin user (conflict
target: the unique constraint `(tenant_id, email)`).  A conflict on the
named target turns the insert into a no-op; a violation of a *different*
unique constraint (the tenants `api_key_hash` UNIQUE, the users `id`
primary key) is still an error, modelled as `none`. -/

/-- The demo tenant row the seed inserts. -/
def demoTenant : TenantRow :=
  { id := "550e8400-e29b-41d4-a716-446655440000"
    name := "Demo NGO"
    api_key_hash := "demo_api_key_hash_placeholder"
    is_active := true }

/-- The demo admin user row the seed inserts. -/
def demoAdminUser : UserRow :=
  { id := "650e8400-e29b-41d4-a716-446655440000"
    tenant_id := "550e8400-e29b-41d4-a716-446655440000"
    email := "admin@demo-ngo.org"
    password_hash := "hashed_password_placeholder"
    full_name := some "Admin User"
    role := "admin"
    is_active := true }

/-- The seed's tenant insert: `ON CONFLICT (id) DO NOTHING`. -/
def seedTenantInsert (ts : List TenantRow) : Option (List TenantRow) :=
  if ts.any (fun t => t.id == demoTenant.id) then some ts
  else if ts.any (fun t => t.api_key_hash == demoTenant.api_key_hash) then none
  else some (ts ++ [demoTenant])

/-- The seed's user insert: `ON CONFLICT (tenant_id, email) DO NOTHING`,
with the users `id` primary key and the `REFERENCES tenants(id)` clause
still enforced. -/
def seedUserInsert (ts : List TenantRow) (us : List UserRow) :
    Option (List UserRow) :=
  if us.any (fun u => u.tenant_id == demoAdminUser.tenant_id
      && u.email == demoAdminUser.email) then some us
  else if us.any (fun u => u.id == demoAdminUser.id) then none
  else if ts.any (fun t => t.id == demoAdminUser.tenant_id) then
    some (us ++ [demoAdminUser])
  else none

/-- The whole seed step of init.sql: tenant insert, then user insert
(an error in either statement aborts the step). -/
def seedStep (db : DB) : Option DB :=
  match seedTenantInsert db.tenants with
  | none => none
  | some ts =>
    match seedUserInsert ts db.users with
    | none => none
    | some us => some { db with tenants := ts, users := us }

/-! ## The scaling-event status column

init.sql line 69 declares `status VARCHAR(50) DEFAULT 'pending'` with a
comment naming the four values; no CHECK constraint and no trigger
accompany it.  What the schema validates on an UPDATE of the column is
therefore only the column constraints (a non-null string of at most 50
characters).  The forward-only state machine
`pending -> approved|rejected -> executed` comes from the design
documents; it is a separate relation the schema does not implement. -/

/-- What the delivered column definition accepts as a status value:
any string of length at most 50 (VARCHAR(50), NOT NULL via the type). -/
def statusColumnOk (s : String) : Bool := s.length ≤ 50

/-- The update check the delivered schema performs when the status column
changes: only the new value's column constraints.  The old value plays no
role — no trigger or CHECK compares them. -/
def schemaStatusUpdateOk (_old new : String) : Bool := statusColumnOk new

/-- The documented forward-only state machine on status values:
`pending -> approved`, `pending -> rejected`, `approved -> executed`. -/
def statusTransitionOk (old new : String) : Bool :=
  (old == "pending" && (new == "approved" || new == "rejected")) ||
  (old == "approved" && new == "executed")

/-- Consecutive elements of the list are all related by `R`. -/
def chainBy (R : String → String → Bool) : List String → Bool
  | [] => true
  | [_] => true
  | a :: b :: rest => R a b && chainBy R (b :: rest)

/-- The history of a row's status values reaches `executed` only after
`approved`: wherever `"executed"` occurs, `"approved"` occurs strictly
earlier. -/
def ExecutedAfterApproved (tr : List String) : Prop :=
  ∀ l r, tr = l ++ "executed" :: r → "approved" ∈ l

/-! ## Sidebar navigation and registered routes

`frontend/src/components/Sidebar.tsx` lines 12-20 list the navigation
items; `frontend/src/router.tsx` (the object-configuration revision,
lines 73-112) and `frontend/src/App.tsx` lines 14-25 register the routes.
Only the target paths matter for the navigation/route-set property. -/

/-- The `to` paths of `navItems` in Sidebar.tsx. -/
def sidebarPaths : List String :=
  ["/", "/metrics", "/predictions", "/recommendations", "/approvals",
   "/simulator", "/audit-log"]

/-- The route paths registered by router.tsx (lines 73-112): the index
route `/` plus seven children, including `tenants`. -/
def routerPaths : List String :=
  ["/", "/metrics", "/predictions", "/recommendations", "/approvals",
   "/simulator", "/audit-log", "/tenants"]

/-- The route paths registered by App.tsx lines 14-25 (the declarative
revision) — the same set as router.tsx lines 73-112. -/
def appRoutePaths : List String :=
  ["/", "/metrics", "/predictions", "/recommendations", "/approvals",
   "/simulator", "/audit-log", "/tenants"]

/-! ## Spec-modelled ML-engine and API operations

The audit documents record that `ml_engine/` and the ingestion endpoint
are not present in the delivered tree; `docs/ML_INTEGRATION_GUIDE.md` and
the spec are their only description.  The definitions below are therefore
modelled from the spec, as their doc comments state. -/

/-- The fixed metric-type whitelist
(docs/ML_INTEGRATION_GUIDE.md, "Metric Types"). -/
def metricTypeWhitelist : List String :=
  ["requests_per_minute", "error_rate", "latency_p50", "latency_p95",
   "latency_p99", "cpu_usage", "memory_usage"]

/-- An item of an ingestion batch (`{metric_type, value, tags?, time?}`). -/
structure IngestItem where
  metric_type : String
  value : ℚ
  tags : Option String
  time : Option Int
deriving DecidableEq, Repr

/-- The API error taxonomy of the spec (section 7). -/
inductive ApiError where
  | invalidInput
  | notFound
  | forbidden
  | invalidState
deriving DecidableEq, Repr

/-- Modelled from the spec: the `POST /api/metrics/ingest` operation,
whose implementation is absent from the delivered tree (the backend holds
only two placeholder endpoints).  Per the spec, a batch containing any
metric type outside the whitelist fails with InvalidInput and writes
nothing (the returned database is the input database); a valid batch
bulk-inserts one metrics row per item for the caller's tenant, with a
missing time defaulting to the request time. -/
def ingestMetrics (ctx : String) (now : Int) (batch : List IngestItem)
    (db : DB) : Option ApiError × DB :=
  if batch.all (fun i => decide (i.metric_type ∈ metricTypeWhitelist)) then
    (none, { db with metrics := db.metrics ++ batch.map (fun i =>
      { time := i.time.getD now
        tenant_id := ctx
        metric_type := i.metric_type
        value := i.value
        tags := i.tags }) })
  else
    (some ApiError.invalidInput, db)

/-- Modelled from the spec: the ML engine's `ScalingCalculator`
(`ml_engine/scaling_calculator.py`, absent from the delivered tree).
Formula per the spec and docs/ML_INTEGRATION_GUIDE.md lines 180-195:
`recommended_replicas = ceil(peak_predicted_value / capacity_per_pod)
× safety_factor`, then clamped to `[1, 50]` (MIN_REPLICAS 1,
MAX_REPLICAS 50). -/
def calcRecommendedReplicas (peak capacity safetyFactor : ℚ) : ℤ :=
  max 1 (min 50 ⌈(⌈peak / capacity⌉ : ℚ) * safetyFactor⌉)

/-- Modelled from the spec: the `HybridForecaster`'s model choice
(`ml_engine/forecaster.py`, absent from the delivered tree).  The pattern
learner is used only when a trained pattern model exists, a trigger rule
matches and its confidence is at or above the global acceptance threshold
0.7; otherwise the forecaster falls back to the seasonal baseline, and
the returned `model_used` field names the model that produced the
prediction. -/
def hybridModelUsed (patternTrained triggerMatched : Bool)
    (patternConfidence : ℚ) : String :=
  if patternTrained && triggerMatched
      && decide ((7 : ℚ)/10 ≤ patternConfidence) then
    "pattern_learner"
  else
    "seasonal_baseline"

/-- Modelled from the spec: persisting a scaling recommendation produced
by the calculator as a `scaling_events` row (the service layer that would
do so is absent from the delivered tree).  The row enters at the default
status and carries the calculator's clamped replica count. -/
def persistRecommendation (db : DB) (id tid eventType : String)
    (currentReplicas : Int) (peak capacity safetyFactor : ℚ)
    (costImpact : Option ℚ) (confidence : ℚ) (reason : String) : DB :=
  insertScalingEvent db
    { id := id
      tenant_id := tid
      event_type := eventType
      current_replicas := currentReplicas
      recommended_replicas := calcRecommendedReplicas peak capacity safetyFactor
      cost_impact_usd := costImpact
      confidence := confidence
      status := "pending"
      reason := some reason
      approved_by := none
      executed_at := none }

/-- An insert payload for `scaling_events` in which the columns that
init.sql gives defaults for may be omitted: omitting `status` leaves the
column to its declared `DEFAULT 'pending'`. -/
structure ScalingEventInsertPayload where
  id : String
  tenant_id : String
  event_type : String
  current_replicas : Int
  recommended_replicas : Int
  cost_impact_usd : Option ℚ
  confidence : ℚ
  status : Option String
  reason : Option String
  approved_by : Option String
  executed_at : Option Int
deriving DecidableEq, Repr

/-- The row an insert payload produces, applying the column default
`DEFAULT 'pending'` of init.sql line 69 when `status` is omitted. -/
def ScalingEventInsertPayload.toRow (p : ScalingEventInsertPayload) :
    ScalingEventRow :=
  { id := p.id
    tenant_id := p.tenant_id
    event_type := p.event_type
    current_replicas := p.current_replicas
    recommended_replicas := p.recommended_replicas
    cost_impact_usd := p.cost_impact_usd
    confidence := p.confidence
    status := p.status.getD "pending"
    reason := p.reason
    approved_by := p.approved_by
    executed_at := p.executed_at }

/-! ## Invariant predicates used by the claims -/

/-- Every `scaling_events` row carries a replica recommendation within
the `[1, 50]` safety bounds. -/
def ReplicasBounded (db : DB) : Prop :=
  ∀ e ∈ db.scaling_events, 1 ≤ e.recommended_replicas ∧ e.recommended_replicas ≤ 50

/-- Every stored metrics row has a whitelisted metric type. -/
def MetricTypesWhitelisted (db : DB) : Prop :=
  ∀ m ∈ db.metrics, m.metric_type ∈ metricTypeWhitelist

/-- Every row of the three tables whose `tenant_id` carries a
`REFERENCES tenants(id)` clause resolves to an existing tenant. -/
def RefIntegrity (db : DB) : Prop :=
  (∀ f ∈ db.forecasts, tenantExists db f.tenant_id = true) ∧
  (∀ e ∈ db.scaling_events, tenantExists db e.tenant_id = true) ∧
  (∀ a ∈ db.audit_logs, tenantExists db a.tenant_id = true)

/-! ## Helper lemmas on the status state machine -/

lemma statusTransitionOk_pending {b : String}
    (h : statusTransitionOk "pending" b = true) :
    b = "approved" ∨ b = "rejected" := by
  simp only [statusTransitionOk, Bool.or_eq_true, Bool.and_eq_true,
    beq_iff_eq] at h
  rcases h with ⟨-, h⟩ | ⟨hpa, -⟩
  · exact h
  · exact absurd hpa (by decide)

lemma statusTransitionOk_approved {b : String}
    (h : statusTransitionOk "approved" b = true) : b = "executed" := by
  simp only [statusTransitionOk, Bool.or_eq_true, Bool.and_eq_true,
    beq_iff_eq] at h
  rcases h with ⟨hap, -⟩ | ⟨-, h⟩
  · exact absurd hap (by decide)
  · exact h

lemma statusTransitionOk_rejected {b : String}
    (h : statusTransitionOk "rejected" b = true) : False := by
  simp only [statusTransitionOk, Bool.or_eq_true, Bool.and_eq_true,
    beq_iff_eq] at h
  rcases h with ⟨hr, -⟩ | ⟨hr, -⟩ <;> exact absurd hr (by decide)

lemma statusTransitionOk_executed {b : String}
    (h : statusTransitionOk "executed" b = true) : False := by
  simp only [statusTransitionOk, Bool.or_eq_true, Bool.and_eq_true,
    beq_iff_eq] at h
  rcases h with ⟨hr, -⟩ | ⟨hr, -⟩ <;> exact absurd hr (by decide)

/-- Along the documented state machine, a status history starting at
`pending` takes one of exactly four shapes. -/
lemma pending_chain_cases (tr : List String)
    (hc : chainBy statusTransitionOk ("pending" :: tr) = true) :
    tr = [] ∨ tr = ["approved"] ∨ tr = ["rejected"] ∨
      tr = ["approved", "executed"] := by
  match tr with
  | [] => exact Or.inl rfl
  | b :: tr' =>
    have h1 : statusTransitionOk "pending" b = true ∧
        chainBy statusTransitionOk (b :: tr') = true := by
      simpa [chainBy] using hc
    rcases statusTransitionOk_pending h1.1 with hb | hb
    · subst hb
      match tr' with
      | [] => exact Or.inr (Or.inl rfl)
      | c :: tr'' =>
        have h2 : statusTransitionOk "approved" c = true ∧
            chainBy statusTransitionOk (c :: tr'') = true := by
          simpa [chainBy] using h1.2
        have hc' := statusTransitionOk_approved h2.1
        subst hc'
        match tr'' with
        | [] => exact Or.inr (Or.inr (Or.inr rfl))
        | d :: _ =>
          have h3 : statusTransitionOk "executed" d = true := by
            have h4 := h2.2
            simp only [chainBy, Bool.and_eq_true] at h4
            exact h4.1
          exact absurd h3 (fun h => statusTransitionOk_executed h)
    · subst hb
      match tr' with
      | [] => exact Or.inr (Or.inr (Or.inl rfl))
      | c :: tr'' =>
        have h2 : statusTransitionOk "rejected" c = true := by
          have h4 := h1.2
          simp only [chainBy, Bool.and_eq_true] at h4
          exact h4.1
        exact absurd h2 (fun h => statusTransitionOk_rejected h)

/-- A history that never mentions `"executed"` trivially satisfies
`ExecutedAfterApproved`. -/
lemma executedAfterApproved_of_not_mem {tr : List String}
    (h : "executed" ∉ tr) : ExecutedAfterApproved tr := by
  intro l r heq
  exact absurd (heq ▸ List.mem_append_right l (List.mem_cons_self _ _)) h

/-- The one executing history of the state machine satisfies
`ExecutedAfterApproved`. -/
lemma executedAfterApproved_full :
    ExecutedAfterApproved ["pending", "approved", "executed"] := by
  intro l r heq
  match l, heq with
  | [], h => simp at h
  | [a], h => simp at h
  | [a, b], h =>
    have hb : b = "approved" := by
      have := h
      simp at this
      exact this.2.1.symm
    simp [hb]
  | a :: b :: c :: l', h => simp at h

/-! ## Helper lemmas on the seed step -/

lemma seedTenantInsert_has_demo {ts ts' : List TenantRow}
    (h : seedTenantInsert ts = some ts') :
    ts'.any (fun t => t.id == demoTenant.id) = true := by
  unfold seedTenantInsert at h
  split_ifs at h with h1 h2
  · cases h
    exact h1
  · cases h
    simp

lemma seedTenantInsert_noop {ts : List TenantRow}
    (h : ts.any (fun t => t.id == demoTenant.id) = true) :
    seedTenantInsert ts = some ts := by
  unfold seedTenantInsert
  rw [if_pos h]

lemma seedUserInsert_has_demo {ts : List TenantRow} {us us' : List UserRow}
    (h : seedUserInsert ts us = some us') :
    us'.any (fun u => u.tenant_id == demoAdminUser.tenant_id
      && u.email == demoAdminUser.email) = true := by
  unfold seedUserInsert at h
  split_ifs at h with h1 h2 h3
  · cases h
    exact h1
  · cases h
    simp

lemma seedUserInsert_noop {ts : List TenantRow} {us : List UserRow}
    (h : us.any (fun u => u.tenant_id == demoAdminUser.tenant_id
      && u.email == demoAdminUser.email) = true) :
    seedUserInsert ts us = some us := by
  unfold seedUserInsert
  rw [if_pos h]

/-- Deleting one tenant keeps every other existing tenant findable. -/
lemma tenantExists_deleteTenant {db : DB} {tid x : String}
    (hx : tenantExists db x = true) (hne : x ≠ tid) :
    tenantExists (deleteTenant db tid) x = true := by
  simp only [tenantExists, deleteTenant, List.any_eq_true] at hx ⊢
  obtain ⟨t, ht, htx⟩ := hx
  have htid : t.id = x := by simpa using htx
  refine ⟨t, List.mem_filter.mpr ⟨ht, ?_⟩, htx⟩
  simp [bne_iff_ne, htid, hne]

/-! ## Claim theorems -/

/-- C1 (counterexample): the delivered schema does not preserve the
claimed invariant under arbitrary row updates.  The status history
`pending -> executed` consists of schema-accepted column updates (the
status column is a plain VARCHAR(50) with no CHECK constraint or
trigger), yet it reaches `executed` without ever reaching `approved`. -/
theorem scaling_status_schema_allows_skip :
    ["pending", "executed"].head? = some "pending" ∧
    chainBy schemaStatusUpdateOk ["pending", "executed"] = true ∧
    ¬ ExecutedAfterApproved ["pending", "executed"] := by
  refine ⟨rfl, by decide, ?_⟩
  intro h
  have happ : "approved" ∈ ["pending"] := h ["pending"] [] rfl
  simp at happ

/-- C1 (amended): the schema itself cannot enforce the state machine, but
along any status history whose every step follows the documented
forward-only transition relation `pending -> approved|rejected ->
executed`, a row reaches `executed` only after having been `approved`. -/
theorem scaling_status_machine_executed_after_approved (tr : List String)
    (h0 : tr.head? = some "pending")
    (hc : chainBy statusTransitionOk tr = true) :
    ExecutedAfterApproved tr := by
  match tr, h0 with
  | s :: rest, h0 =>
    have hs : s = "pending" := by simpa using h0
    subst hs
    rcases pending_chain_cases rest hc with h | h | h | h <;> subst h
    · exact executedAfterApproved_of_not_mem (by decide)
    · exact executedAfterApproved_of_not_mem (by decide)
    · exact executedAfterApproved_of_not_mem (by decide)
    · exact executedAfterApproved_full

/-- C1 (witness): the full `pending -> approved -> executed` history
satisfies the hypotheses and the conclusion of the amended theorem. -/
theorem scaling_status_machine_executed_after_approved_witness :
    ["pending", "approved", "executed"].head? = some "pending" ∧
    chainBy statusTransitionOk ["pending", "approved", "executed"] = true ∧
    ExecutedAfterApproved ["pending", "approved", "executed"] :=
  ⟨by decide, by decide,
    scaling_status_machine_executed_after_approved
      ["pending", "approved", "executed"] (by decide) (by decide)⟩

/-- C3: under a session whose `app.current_tenant_id` is set to tenant A,
each tenant-scoped table's policy admits a row exactly when its
`tenant_id` equals A, so no row of a different tenant B is returned or
affected; the `tenants` table's policy admits every row. -/
theorem rls_tenant_isolation (ctxA tenantB : String) (db : DB)
    (hne : tenantB ≠ ctxA) :
    (∀ r : UserRow, r ∈ visibleUsers ctxA db ↔
        r ∈ db.users ∧ r.tenant_id = ctxA) ∧
    (∀ r : MetricRow, r ∈ visibleMetrics ctxA db ↔
        r ∈ db.metrics ∧ r.tenant_id = ctxA) ∧
    (∀ r : ForecastRow, r ∈ visibleForecasts ctxA db ↔
        r ∈ db.forecasts ∧ r.tenant_id = ctxA) ∧
    (∀ r : ScalingEventRow, r ∈ visibleScalingEvents ctxA db ↔
        r ∈ db.scaling_events ∧ r.tenant_id = ctxA) ∧
    (∀ r : AuditLogRow, r ∈ visibleAuditLogs ctxA db ↔
        r ∈ db.audit_logs ∧ r.tenant_id = ctxA) ∧
    (∀ r : MetricRow, r.tenant_id = tenantB → r ∉ visibleMetrics ctxA db) ∧
    (∀ r : ScalingEventRow, r.tenant_id = tenantB →
        r ∉ visibleScalingEvents ctxA db) ∧
    (∀ r : TenantRow, r ∈ visibleTenants ctxA db ↔ r ∈ db.tenants) := by
  refine ⟨?_, ?_, ?_, ?_, ?_, ?_, ?_, ?_⟩
  · intro r
    simp [visibleUsers, policyUsers, List.mem_filter, beq_iff_eq]
  · intro r
    simp [visibleMetrics, policyMetrics, List.mem_filter, beq_iff_eq]
  · intro r
    simp [visibleForecasts, policyForecasts, List.mem_filter, beq_iff_eq]
  · intro r
    simp [visibleScalingEvents, policyScalingEvents, List.mem_filter,
      beq_iff_eq]
  · intro r
    simp [visibleAuditLogs, policyAuditLogs, List.mem_filter, beq_iff_eq]
  · intro r hB hmem
    have : r.tenant_id = ctxA := by
      have h := hmem
      simp [visibleMetrics, policyMetrics, List.mem_filter, beq_iff_eq] at h
      exact h.2
    exact hne (hB ▸ this)
  · intro r hB hmem
    have : r.tenant_id = ctxA := by
      have h := hmem
      simp [visibleScalingEvents, policyScalingEvents, List.mem_filter,
        beq_iff_eq] at h
      exact h.2
    exact hne (hB ▸ this)
  · intro r
    simp [visibleTenants, policyTenants, List.filter]

/-- C3 (witness): instantiated at two distinct concrete tenant ids and
the empty database. -/
theorem rls_tenant_isolation_witness :
    "tenant-b" ≠ "tenant-a" ∧
    (∀ r : TenantRow,
        r ∈ visibleTenants "tenant-a" DB.empty ↔ r ∈ DB.empty.tenants) :=
  ⟨by decide,
    (rls_tenant_isolation "tenant-a" "tenant-b" DB.empty
      (by decide)).2.2.2.2.2.2.2⟩

/-- C6 (counterexample): the sets differ — `/tenants` is a registered
route (router.tsx lines 73-112, App.tsx lines 14-25) but is not among the
sidebar's navigation targets (Sidebar.tsx lines 12-20), so the set of
sidebar-reachable paths does not equal the set of registered routes. -/
theorem sidebar_missing_tenants_route :
    routerPaths.contains "/tenants" = true ∧
    sidebarPaths.contains "/tenants" = false ∧
    appRoutePaths.contains "/tenants" = true := by
  decide

/-- C6 (amended): every sidebar navigation entry targets a registered
route (the sidebar paths are a subset of the registered routes, and the
two route tables agree), but the converse inclusion fails: the `/tenants`
route is registered and missing from the sidebar. -/
theorem sidebar_subset_of_routes :
    sidebarPaths.all (fun p => routerPaths.contains p) = true ∧
    appRoutePaths = routerPaths ∧
    routerPaths.contains "/tenants" = true ∧
    sidebarPaths.contains "/tenants" = false := by
  decide

/-- C10: a `scaling_events` insert that omits the status value produces a
row whose status is the declared column default `'pending'` — never
`approved`, `rejected` or `executed`. -/
theorem scaling_event_default_status_pending
    (p : ScalingEventInsertPayload) (h : p.status = none) :
    p.toRow.status = "pending" ∧ p.toRow.status ≠ "approved" ∧
    p.toRow.status ≠ "rejected" ∧ p.toRow.status ≠ "executed" := by
  simp [ScalingEventInsertPayload.toRow, h]

/-- A concrete `scaling_events` insert payload that omits the status
value. -/
def defaultStatusPayload : ScalingEventInsertPayload :=
  { id := "750e8400-e29b-41d4-a716-446655440000"
    tenant_id := "550e8400-e29b-41d4-a716-446655440000"
    event_type := "SURGE_DETECTED"
    current_replicas := 10
    recommended_replicas := 6
    cost_impact_usd := none
    confidence := 0
    status := none
    reason := some "Predicted surge"
    approved_by := none
    executed_at := none }

/-- A one-item ingestion batch with a metric type outside the
whitelist. -/
def badBatch : List IngestItem :=
  [{ metric_type := "bogus_type", value := 1, tags := none, time := none }]

/-- C5: an ingestion batch containing any metric type outside the fixed
whitelist fails with InvalidInput and leaves the metrics table unchanged
(the returned database is the input database, so no row of the batch is
written); and a successful ingest of a valid batch preserves the
invariant that every stored metric type belongs to the whitelist. -/
theorem ingest_whitelist_invalid_input (ctx : String) (now : Int)
    (batch : List IngestItem) (db : DB) :
    ((∃ i ∈ batch, i.metric_type ∉ metricTypeWhitelist) →
      ingestMetrics ctx now batch db = (some ApiError.invalidInput, db)) ∧
    (∀ db', ingestMetrics ctx now batch db = (none, db') →
      MetricTypesWhitelisted db → MetricTypesWhitelisted db') := by
  constructor
  · rintro ⟨i, hi, hnw⟩
    have hcond : ¬ (batch.all
        (fun i => decide (i.metric_type ∈ metricTypeWhitelist)) = true) := by
      rw [List.all_eq_true]
      intro hall
      exact hnw (by simpa using hall i hi)
    unfold ingestMetrics
    rw [if_neg hcond]
  · intro db' h hwl
    unfold ingestMetrics at h
    split_ifs at h with hcond
    · have hdb : db' = { db with metrics := db.metrics ++ batch.map (fun i =>
        { time := i.time.getD now
          tenant_id := ctx
          metric_type := i.metric_type
          value := i.value
          tags := i.tags }) } := by
        have h2 := congrArg Prod.snd h
        simpa using h2.symm
      subst hdb
      intro m hm
      simp only [List.mem_append, List.mem_map] at hm
      rcases hm with hm | ⟨i, hi, rfl⟩
      · exact hwl m hm
      · have := List.all_eq_true.mp hcond i hi
        simpa using this
    · cases h

/-- C5 (witness): a concrete bad batch is rejected with InvalidInput and
the database is unchanged. -/
theorem ingest_whitelist_invalid_input_witness :
    (∃ i ∈ badBatch, i.metric_type ∉ metricTypeWhitelist) ∧
    ingestMetrics "550e8400-e29b-41d4-a716-446655440000" 0 badBatch
      DB.empty = (some ApiError.invalidInput, DB.empty) :=
  ⟨by decide,
    (ingest_whitelist_invalid_input "550e8400-e29b-41d4-a716-446655440000"
      0 badBatch DB.empty).1 (by decide)⟩

/-- C7: whenever the pattern learner's confidence is below the acceptance
threshold 0.7, the hybrid forecaster reports the seasonal baseline as
`model_used`; an otherwise-identical input (trained pattern model,
matching trigger) with confidence at or above 0.7 uses the pattern
learner. -/
theorem hybrid_forecaster_model_selection (trained trig : Bool)
    (lowConf highConf : ℚ)
    (hlow : lowConf < 7/10) (hhigh : 7/10 ≤ highConf) :
    hybridModelUsed trained trig lowConf = "seasonal_baseline" ∧
    (trained = true → trig = true →
      hybridModelUsed trained trig highConf = "pattern_learner") := by
  constructor
  · unfold hybridModelUsed
    rw [decide_eq_false (not_le.mpr hlow)]
    simp
  · intro ht htr
    subst ht htr
    unfold hybridModelUsed
    rw [decide_eq_true hhigh]
    simp

/-- C7 (witness): confidence 0.5 falls back to the baseline; 0.9 keeps
the pattern learner. -/
theorem hybrid_forecaster_model_selection_witness :
    (1/2 : ℚ) < 7/10 ∧ (7/10 : ℚ) ≤ 9/10 ∧
    (hybridModelUsed true true (1/2) = "seasonal_baseline" ∧
      (true = true → true = true →
        hybridModelUsed true true (9/10) = "pattern_learner")) :=
  ⟨by norm_num, by norm_num,
    hybrid_forecaster_model_selection true true (1/2) (9/10)
      (by norm_num) (by norm_num)⟩

/-- A metrics row whose tenant_id matches no tenant. -/
def danglingMetric : MetricRow :=
  { time := 0
    tenant_id := "00000000-0000-0000-0000-000000000000"
    metric_type := "requests_per_minute"
    value := 0
    tags := none }

/-- C8 (counterexample): a metrics row whose `tenant_id` corresponds to
no tenant is admitted by the schema — the hypertable's `tenant_id` column
has no REFERENCES clause in init.sql — so such a row can exist in the
table. -/
theorem metrics_dangling_tenant_accepted :
    insertMetricOk DB.empty danglingMetric = true ∧
    tenantExists DB.empty danglingMetric.tenant_id = false ∧
    danglingMetric ∈ (insertMetric DB.empty danglingMetric).metrics := by
  refine ⟨by decide, by decide, ?_⟩
  simp [insertMetric]

/-- C8 (amended): rows of `forecasts`, `scaling_events` and `audit_logs`
do resolve to an existing tenant — their REFERENCES clauses are checked
at insert and tenant deletion cascades — but the `metrics` hypertable
carries no foreign key, so its rows are not so constrained. -/
theorem fk_tables_resolve_tenant (db : DB) (tid : String) :
    (∀ r : ForecastRow, insertForecastOk db r = true →
        tenantExists db r.tenant_id = true) ∧
    (∀ r : ScalingEventRow, insertScalingEventOk db r = true →
        tenantExists db r.tenant_id = true) ∧
    (∀ r : AuditLogRow, insertAuditLogOk db r = true →
        tenantExists db r.tenant_id = true) ∧
    (∀ r : ForecastRow, insertForecastOk db r = true → RefIntegrity db →
        RefIntegrity (insertForecast db r)) ∧
    (∀ r : ScalingEventRow, insertScalingEventOk db r = true →
        RefIntegrity db → RefIntegrity (insertScalingEvent db r)) ∧
    (∀ r : AuditLogRow, insertAuditLogOk db r = true → RefIntegrity db →
        RefIntegrity (insertAuditLog db r)) ∧
    (RefIntegrity db → RefIntegrity (deleteTenant db tid)) := by
  have hfk1 : ∀ r : ForecastRow, insertForecastOk db r = true →
      tenantExists db r.tenant_id = true := by
    intro r h
    simp only [insertForecastOk, Bool.and_eq_true] at h
    exact h.1.2
  have hfk2 : ∀ r : ScalingEventRow, insertScalingEventOk db r = true →
      tenantExists db r.tenant_id = true := by
    intro r h
    simp only [insertScalingEventOk, Bool.and_eq_true] at h
    exact h.1.1.1.2
  have hfk3 : ∀ r : AuditLogRow, insertAuditLogOk db r = true →
      tenantExists db r.tenant_id = true := by
    intro r h
    simp only [insertAuditLogOk, Bool.and_eq_true] at h
    exact h.1.2
  refine ⟨hfk1, hfk2, hfk3, ?_, ?_, ?_, ?_⟩
  · rintro r h ⟨hf, he, ha⟩
    refine ⟨?_, he, ha⟩
    intro f hfmem
    simp only [insertForecast, List.mem_append, List.mem_singleton] at hfmem
    rcases hfmem with hfmem | rfl
    · exact hf f hfmem
    · exact hfk1 _ h
  · rintro r h ⟨hf, he, ha⟩
    refine ⟨hf, ?_, ha⟩
    intro e hemem
    simp only [insertScalingEvent, List.mem_append,
      List.mem_singleton] at hemem
    rcases hemem with hemem | rfl
    · exact he e hemem
    · exact hfk2 _ h
  · rintro r h ⟨hf, he, ha⟩
    refine ⟨hf, he, ?_⟩
    intro a hamem
    simp only [insertAuditLog, List.mem_append,
      List.mem_singleton] at hamem
    rcases hamem with hamem | rfl
    · exact ha a hamem
    · exact hfk3 _ h
  · rintro ⟨hf, he, ha⟩
    refine ⟨?_, ?_, ?_⟩
    · intro f hfmem
      have hmem := (List.mem_filter.mp hfmem)
      exact tenantExists_deleteTenant (hf f hmem.1)
        (by simpa [bne_iff_ne] using hmem.2)
    · intro e hemem
      have hmem := (List.mem_filter.mp hemem)
      exact tenantExists_deleteTenant (he e hmem.1)
        (by simpa [bne_iff_ne] using hmem.2)
    · intro a hamem
      have hmem := (List.mem_filter.mp hamem)
      exact tenantExists_deleteTenant (ha a hmem.1)
        (by simpa [bne_iff_ne] using hmem.2)

/-- A forecast row for the demo tenant. -/
def demoForecast : ForecastRow :=
  { id := "950e8400-e29b-41d4-a716-446655440000"
    tenant_id := "550e8400-e29b-41d4-a716-446655440000"
    forecast_time := 0
    metric_type := "requests_per_minute"
    predicted_value := 180
    confidence := 87/100
    model_version := some "1.0" }

/-- The database state after running init.sql's seed step on the freshly
created (empty) tables. -/
def seededDB : DB :=
  { DB.empty with tenants := [demoTenant], users := [demoAdminUser] }

/-- C9: the seed step on the fresh database inserts exactly the demo
tenant (name "Demo NGO") and the demo admin user
(email "admin@demo-ngo.org", role admin); and on any database on which
the seed step has already run successfully, running it again is a no-op
(both ON CONFLICT targets are hit, so DO NOTHING applies). -/
theorem seed_idempotent :
    seedStep DB.empty = some seededDB ∧
    seededDB.tenants = [demoTenant] ∧
    demoTenant.name = "Demo NGO" ∧
    seededDB.users = [demoAdminUser] ∧
    demoAdminUser.email = "admin@demo-ngo.org" ∧
    demoAdminUser.role = "admin" ∧
    ∀ db db', seedStep db = some db' → seedStep db' = some db' := by
  refine ⟨by decide, rfl, rfl, rfl, rfl, rfl, ?_⟩
  intro db db' h
  unfold seedStep at h
  cases hts : seedTenantInsert db.tenants with
  | none => rw [hts] at h; cases h
  | some ts =>
    rw [hts] at h
    dsimp only at h
    cases hus : seedUserInsert ts db.users with
    | none => rw [hus] at h; cases h
    | some us =>
      rw [hus] at h
      cases h
      unfold seedStep
      rw [show ({ db with tenants := ts, users := us } : DB).tenants = ts
        from rfl]
      rw [seedTenantInsert_noop (seedTenantInsert_has_demo hts)]
      dsimp only
      rw [seedUserInsert_noop (seedUserInsert_has_demo hus)]

/-- C9 (witness): running the seed twice from the fresh database. -/
theorem seed_idempotent_witness :
    seedStep DB.empty = some seededDB ∧ seedStep seededDB = some seededDB :=
  ⟨by decide, seed_idempotent.2.2.2.2.2.2 DB.empty seededDB (by decide)⟩

/-- C2: the scaling calculator's result is always clamped to `[1, 50]`
whatever the forecast magnitude, and a scaling_events table into which
only calculator-produced recommendations are persisted keeps every
stored `recommended_replicas` within `[1, 50]`. -/
theorem recommended_replicas_bounded (peak capacity safetyFactor : ℚ)
    (_hcap : 0 < capacity) :
    (1 ≤ calcRecommendedReplicas peak capacity safetyFactor ∧
      calcRecommendedReplicas peak capacity safetyFactor ≤ 50) ∧
    (∀ (db : DB) (id tid eventType : String) (cur : Int)
        (cost : Option ℚ) (conf : ℚ) (reason : String),
      ReplicasBounded db →
      ReplicasBounded (persistRecommendation db id tid eventType cur
        peak capacity safetyFactor cost conf reason)) := by
  have hb : 1 ≤ calcRecommendedReplicas peak capacity safetyFactor ∧
      calcRecommendedReplicas peak capacity safetyFactor ≤ 50 := by
    unfold calcRecommendedReplicas
    exact ⟨le_max_left _ _, max_le (by norm_num) (min_le_left _ _)⟩
  refine ⟨hb, ?_⟩
  intro db id tid eventType cur cost conf reason hdb e he
  simp only [persistRecommendation, insertScalingEvent,
    List.mem_append, List.mem_singleton] at he
  rcases he with he | he
  · exact hdb e he
  · subst he
    exact hb

/-- C2 (witness): the spec's own numeric scenario, peak 280, capacity 50,
safety factor 1 (the result, `ceil(280/50) = 6`, is inside the bounds). -/
theorem recommended_replicas_bounded_witness :
    (0 : ℚ) < 50 ∧
    (1 ≤ calcRecommendedReplicas 280 50 1 ∧
      calcRecommendedReplicas 280 50 1 ≤ 50) :=
  ⟨by norm_num, (recommended_replicas_bounded 280 50 1 (by norm_num)).1⟩

/-- A database holding just the seeded demo tenant. -/
def dbWithDemoTenant : DB := { DB.empty with tenants := [demoTenant] }

/-- A `scaling_events` row whose reason is the empty string. -/
def emptyReasonEvent : ScalingEventRow :=
  { id := "850e8400-e29b-41d4-a716-446655440000"
    tenant_id := "550e8400-e29b-41d4-a716-446655440000"
    event_type := "SURGE_DETECTED"
    current_replicas := 10
    recommended_replicas := 6
    cost_impact_usd := none
    confidence := 0
    status := "pending"
    reason := some ""
    approved_by := none
    executed_at := none }

/-- A `scaling_events` row with a normal non-empty reason. -/
def surgeEvent : ScalingEventRow :=
  { id := "860e8400-e29b-41d4-a716-446655440000"
    tenant_id := "550e8400-e29b-41d4-a716-446655440000"
    event_type := "SURGE_DETECTED"
    current_replicas := 10
    recommended_replicas := 6
    cost_impact_usd := none
    confidence := 0
    status := "pending"
    reason := some "Predicted surge from 150 to 280 requests/min"
    approved_by := none
    executed_at := none }

/-- C4 (counterexample): the delivered schema accepts a scaling_events
row whose reason is the empty string — `reason TEXT NOT NULL` rejects
only absence, not `''` (there is no CHECK constraint), so persisting an
empty-string reason is possible. -/
theorem scaling_event_empty_reason_accepted :
    emptyReasonEvent.reason = some "" ∧
    insertScalingEventOk dbWithDemoTenant emptyReasonEvent = true ∧
    emptyReasonEvent ∈
      (insertScalingEvent dbWithDemoTenant emptyReasonEvent).scaling_events := by
  refine ⟨rfl, by decide, ?_⟩
  simp [insertScalingEvent]

/-- C4 (amended): the NOT NULL constraint on `reason` does hold — a
scaling_events row can be persisted only with a present reason value —
but the delivered schema does not reject the empty string. -/
theorem scaling_event_reason_not_null (db : DB) (r : ScalingEventRow)
    (h : insertScalingEventOk db r = true) : r.reason ≠ none := by
  simp only [insertScalingEventOk, Bool.and_eq_true] at h
  exact Option.ne_none_iff_isSome.mpr h.2

/-- C4 (witness): a concrete admitted row has a present reason. -/
theorem scaling_event_reason_not_null_witness :
    insertScalingEventOk dbWithDemoTenant surgeEvent = true ∧
    surgeEvent.reason ≠ none :=
  ⟨by decide, scaling_event_reason_not_null dbWithDemoTenant surgeEvent
    (by decide)⟩

/-- C10 (witness): a concrete payload with no explicit status. -/
theorem scaling_event_default_status_pending_witness :
    defaultStatusPayload.status = none ∧
    (defaultStatusPayload.toRow.status = "pending" ∧
      defaultStatusPayload.toRow.status ≠ "approved" ∧
      defaultStatusPayload.toRow.status ≠ "rejected" ∧
      defaultStatusPayload.toRow.status ≠ "executed") :=
  ⟨rfl, scaling_event_default_status_pending defaultStatusPayload rfl⟩

/-- C8 (witness): a concrete admitted forecast row resolves to the demo
tenant. -/
theorem fk_tables_resolve_tenant_witness :
    insertForecastOk dbWithDemoTenant demoForecast = true ∧
    tenantExists dbWithDemoTenant demoForecast.tenant_id = true := by
  constructor
  · decide
  · exact (fk_tables_resolve_tenant dbWithDemoTenant "x").1 demoForecast
      (by decide)

end SadaqaTech
